import Mathlib

/-!
Shallow embedding of the NoteBox note-creation core: the `functional.note`
table, the `functional.spNoteCreate` stored procedure, the note service
adapter and the HTTP controller `postHandler`, together with proofs of the
specification claims about them.

Conventions of the embedding:
- SQL `INTEGER` columns and parameters become `Int`; `DATETIME2` instants
  become `Nat` (an abstract UTC clock value); `BIT` becomes `Bool`;
  `NVARCHAR` becomes `String`.
- A nullable stored-procedure parameter becomes an `Option`.
- Assigning an argument to the `NVARCHAR(255)` parameter `@title`
  silently truncates it to 255 characters (`nvarchar255`), as SQL Server
  does for procedure parameters; `@content` is `NVARCHAR(MAX)` and is
  not truncated.
- `LTRIM(RTRIM(s))` becomes `sqlTrim s`, which removes only space
  characters (char 32) from both ends, exactly as T-SQL `LTRIM` and
  `RTRIM` do; `LEN(s)` becomes `sqlLen s`, the character count excluding
  trailing blanks, exactly as T-SQL `LEN` does.
- The database is a value of type `DB`; the `IDENTITY(1, 1)` column of the
  `note` table is modelled by the counter `DB.nextNoteId`.
- `THROW 51000, msg, 1` becomes `Except.error ⟨51000, msg⟩`; every
  operation returns the resulting database next to its `Except` result, so
  that the absence of an effect on failure is a provable statement.
-/

/-- Row of the `security.user` table, restricted to the columns that
`spNoteCreate` reads: `idUser`, `idAccount` and the soft-delete flag. -/
structure UserRow where
  idUser : Int
  idAccount : Int
  deleted : Bool
  deriving DecidableEq

/-- Row of the `functional.note` table as declared in the schema:
identifier, tenant account, owning user, title, content, the two
timestamps and the soft-delete flag. -/
structure NoteRow where
  idNote : Int
  idAccount : Int
  idUser : Int
  title : String
  content : String
  dateCreated : Nat
  dateModified : Nat
  deleted : Bool
  deriving DecidableEq

/-- Database state seen by the creation path: the `security.user` rows,
the `functional.note` rows, and the next value of the `IDENTITY(1, 1)`
counter that assigns `idNote`. -/
structure DB where
  users : List UserRow
  notes : List NoteRow
  nextNoteId : Int
  deriving DecidableEq

/-- Error raised by a `THROW number, message, state` statement: the error
number (always 51000 in `spNoteCreate`) and the message string. -/
structure SqlError where
  number : Nat
  message : String
  deriving DecidableEq

/-- Embedding of `LTRIM(RTRIM(s))`: remove leading and trailing space
characters (char 32) from the string. T-SQL `LTRIM` and `RTRIM` strip
only spaces, so a tab-only or newline-only string is not blank after
trimming. -/
def sqlTrim (s : String) : String :=
  ⟨((s.data.dropWhile (fun ch => ch == ' ')).reverse.dropWhile
      (fun ch => ch == ' ')).reverse⟩

/-- Embedding of the silent truncation SQL Server applies when a string
argument is assigned to the `NVARCHAR(255)` parameter `@title` of the
procedure: only the first 255 characters reach the body. -/
def nvarchar255 (s : String) : String := ⟨s.data.take 255⟩

/-- Embedding of T-SQL `LEN(s)`: the number of characters of `s`
excluding trailing blanks (space characters). -/
def sqlLen (s : String) : Nat :=
  (s.data.reverse.dropWhile (fun ch => ch == ' ')).length

/-- A string already within the 255-character bound is unchanged by the
parameter truncation. -/
theorem nvarchar255_eq_self {t : String} (h : t.length ≤ 255) :
    nvarchar255 t = t := by
  cases t with
  | mk l =>
    simp only [nvarchar255, String.length] at *
    rw [List.take_of_length_le h]

/-- The truncated title can never have more than 255 characters, even
before discounting trailing blanks, so the length check of the
procedure can never fire. -/
theorem sqlLen_nvarchar255_le (s : String) : sqlLen (nvarchar255 s) ≤ 255 := by
  unfold sqlLen nvarchar255
  calc ((⟨s.data.take 255⟩ : String).data.reverse.dropWhile
        (fun ch => ch == ' ')).length
      ≤ (⟨s.data.take 255⟩ : String).data.reverse.length :=
        (List.dropWhile_sublist _).length_le
    _ = (s.data.take 255).length := List.length_reverse _
    _ ≤ 255 := by
        rw [List.length_take]
        exact min_le_left _ _

/-- The `EXISTS` subquery of the sixth validation of `spNoteCreate`:
there is a `security.user` row with the given user identifier, the given
account identifier, and `deleted = 0`. -/
def activeUserInAccount (db : DB) (uid aid : Int) : Bool :=
  db.users.any fun u => u.idUser == uid && u.idAccount == aid && u.deleted == false

/-- The `INSERT INTO functional.note ... VALUES (@idAccount, @idUser,
@title, @content, @currentDateTime, @currentDateTime, 0)` statement
followed by `SET @idNote = SCOPE_IDENTITY()`: appends one row whose
`idNote` is the current identity value and returns that identifier with
the new state. -/
def insertNote (aid uid : Int) (t c : String) (now : Nat) (db : DB) : Int × DB :=
  (db.nextNoteId,
    ⟨db.users,
      db.notes ++ [⟨db.nextNoteId, aid, uid, t, c, now, now, false⟩],
      db.nextNoteId + 1⟩)

/-- The `BEGIN TRY BEGIN TRAN ... COMMIT TRAN END TRY BEGIN CATCH
ROLLBACK TRAN; THROW END CATCH` wrapper: run the transaction body; on
success keep its state, on failure restore the state from before the
transaction and re-raise the same error. -/
def runTransaction (body : DB → Except SqlError (Int × DB)) (db : DB) :
    Except SqlError Int × DB :=
  match body db with
  | Except.ok (v, db2) => (Except.ok v, db2)
  | Except.error e => (Except.error e, db)

/-- The stored procedure `functional.spNoteCreate`: the title argument
is truncated to the declared `NVARCHAR(255)` parameter size on entry,
then the six fail-fast validations run in source order, then a
transactional insert of a single row with
`dateCreated = dateModified = @currentDateTime` and `deleted = 0`,
returning `SCOPE_IDENTITY()`. `now` stands for the single
`GETUTCDATE()` read inside the transaction. Because of the parameter
truncation, `LEN(@title) > 255` can never hold and the
`titleExceedsMaxLength` branch is dead code. -/
def spNoteCreate (pAccount pUser : Option Int) (pTitle pContent : Option String)
    (now : Nat) (db : DB) : Except SqlError Int × DB :=
  match pAccount with
  | none => (Except.error ⟨51000, "idAccountRequired"⟩, db)
  | some aid =>
    match pUser with
    | none => (Except.error ⟨51000, "idUserRequired"⟩, db)
    | some uid =>
      match pTitle with
      | none => (Except.error ⟨51000, "titleRequired"⟩, db)
      | some t0 =>
        let t := nvarchar255 t0
        if sqlTrim t = "" then (Except.error ⟨51000, "titleRequired"⟩, db)
        else
          match pContent with
          | none => (Except.error ⟨51000, "contentRequired"⟩, db)
          | some c =>
            if sqlTrim c = "" then (Except.error ⟨51000, "contentRequired"⟩, db)
            else if 255 < sqlLen t then
              (Except.error ⟨51000, "titleExceedsMaxLength"⟩, db)
            else if !(activeUserInAccount db uid aid) then
              (Except.error ⟨51000, "userDoesNotBelongToAccount"⟩, db)
            else
              runTransaction (fun d => Except.ok (insertNote aid uid t c now d)) db

/-- Example database used throughout: user 5 is active in account 1,
user 7 exists in account 2 but is soft-deleted; no notes yet; the
identity counter starts at its seed 1. -/
def dbEx : DB := ⟨[⟨5, 1, false⟩, ⟨7, 2, true⟩], [], 1⟩

example :
    spNoteCreate (some 1) (some 5) (some "Groceries") (some "Milk, eggs") 100 dbEx =
      (Except.ok 1,
        ⟨dbEx.users, [⟨1, 1, 5, "Groceries", "Milk, eggs", 100, 100, false⟩], 2⟩) := by
  rfl

example :
    (spNoteCreate (some 1) (some 5) (some "") (some "x") 0 dbEx).fst =
      Except.error ⟨51000, "titleRequired"⟩ := by
  rfl

example :
    (spNoteCreate (some 1) (some 7) (some "t") (some "c") 0 dbEx).fst =
      Except.error ⟨51000, "userDoesNotBelongToAccount"⟩ := by
  rfl

example :
    (spNoteCreate (some 2) (some 7) (some "t") (some "c") 0 dbEx).fst =
      Except.error ⟨51000, "userDoesNotBelongToAccount"⟩ := by
  rfl

/-- Every run of the procedure either fails leaving the database as it
was, or all six validations pass and exactly the new row is appended. -/
theorem spNoteCreate_cases (pA pU : Option Int) (pT pC : Option String)
    (now : Nat) (db : DB) :
    (∃ m, spNoteCreate pA pU pT pC now db = (Except.error ⟨51000, m⟩, db)) ∨
    (∃ aid uid t c, pA = some aid ∧ pU = some uid ∧ pT = some t ∧ pC = some c ∧
      ¬ sqlTrim (nvarchar255 t) = "" ∧ ¬ sqlTrim c = "" ∧
      activeUserInAccount db uid aid = true ∧
      spNoteCreate pA pU pT pC now db =
        (Except.ok db.nextNoteId,
          ⟨db.users,
            db.notes ++ [⟨db.nextNoteId, aid, uid, nvarchar255 t, c, now, now, false⟩],
            db.nextNoteId + 1⟩)) := by
  cases pA with
  | none => exact Or.inl ⟨"idAccountRequired", rfl⟩
  | some aid =>
    cases pU with
    | none => exact Or.inl ⟨"idUserRequired", rfl⟩
    | some uid =>
      cases pT with
      | none => exact Or.inl ⟨"titleRequired", rfl⟩
      | some t =>
        by_cases ht : sqlTrim (nvarchar255 t) = ""
        · exact Or.inl ⟨"titleRequired", by simp [spNoteCreate, ht]⟩
        · cases pC with
          | none => exact Or.inl ⟨"contentRequired", by simp [spNoteCreate, ht]⟩
          | some c =>
            by_cases hc : sqlTrim c = ""
            · exact Or.inl ⟨"contentRequired", by simp [spNoteCreate, ht, hc]⟩
            · have hlen : ¬ 255 < sqlLen (nvarchar255 t) := by
                have := sqlLen_nvarchar255_le t
                omega
              by_cases hu : activeUserInAccount db uid aid = true
              · refine Or.inr ⟨aid, uid, t, c, rfl, rfl, rfl, rfl, ht, hc, hu, ?_⟩
                simp [spNoteCreate, ht, hc, hlen, hu, runTransaction, insertNote]
              · exact Or.inl ⟨"userDoesNotBelongToAccount",
                  by simp [spNoteCreate, ht, hc, hlen, hu]⟩

/-- A failing run returns the database unchanged. -/
theorem spNoteCreate_error_db {pA pU : Option Int} {pT pC : Option String}
    {now : Nat} {db : DB} {e : SqlError} {db2 : DB}
    (h : spNoteCreate pA pU pT pC now db = (Except.error e, db2)) : db2 = db := by
  rcases spNoteCreate_cases pA pU pT pC now db with ⟨e2, he⟩ |
    ⟨aid, uid, t, c, _, _, _, _, _, _, _, hok⟩
  · have h2 := he.symm.trans h
    injection h2 with _ h3
    exact h3.symm
  · have h2 := hok.symm.trans h
    injection h2 with h3 _
    exact absurd h3 (by simp)

/-- Inversion of a successful run: all validations passed on the
truncated title, the returned identifier is the identity value, and
exactly one row was appended with both timestamps equal to the clock
reading. -/
theorem spNoteCreate_ok_inv {pA pU : Option Int} {pT pC : Option String}
    {now : Nat} {db : DB} {id : Int} {db2 : DB}
    (h : spNoteCreate pA pU pT pC now db = (Except.ok id, db2)) :
    ∃ aid uid t c, pA = some aid ∧ pU = some uid ∧ pT = some t ∧ pC = some c ∧
      ¬ sqlTrim (nvarchar255 t) = "" ∧ ¬ sqlTrim c = "" ∧
      activeUserInAccount db uid aid = true ∧ id = db.nextNoteId ∧
      db2 = ⟨db.users,
        db.notes ++ [⟨db.nextNoteId, aid, uid, nvarchar255 t, c, now, now, false⟩],
        db.nextNoteId + 1⟩ := by
  rcases spNoteCreate_cases pA pU pT pC now db with ⟨e2, he⟩ |
    ⟨aid, uid, t, c, h1, h2, h3, h4, h5, h6, h7, hok⟩
  · have h2 := he.symm.trans h
    injection h2 with h3 _
    exact absurd h3 (by simp)
  · have h9 := hok.symm.trans h
    injection h9 with h10 h11
    injection h10 with h10
    exact ⟨aid, uid, t, c, h1, h2, h3, h4, h5, h6, h7, h10.symm, h11.symm⟩

/-- The identity counter never decreases across a run. -/
theorem spNoteCreate_next_mono {pA pU : Option Int} {pT pC : Option String}
    {now : Nat} {db : DB} {r : Except SqlError Int} {db2 : DB}
    (h : spNoteCreate pA pU pT pC now db = (r, db2)) :
    db.nextNoteId ≤ db2.nextNoteId := by
  cases r with
  | error e => rw [spNoteCreate_error_db h]
  | ok id =>
    obtain ⟨aid, uid, t, c, _, _, _, _, _, _, _, _, hdb⟩ := spNoteCreate_ok_inv h
    rw [hdb]
    simp

/-- The user table is never modified by a run. -/
theorem spNoteCreate_users {pA pU : Option Int} {pT pC : Option String}
    {now : Nat} {db : DB} {r : Except SqlError Int} {db2 : DB}
    (h : spNoteCreate pA pU pT pC now db = (r, db2)) :
    db2.users = db.users := by
  cases r with
  | error e => rw [spNoteCreate_error_db h]
  | ok id =>
    obtain ⟨aid, uid, t, c, _, _, _, _, _, _, _, _, hdb⟩ := spNoteCreate_ok_inv h
    rw [hdb]

/-- The `any` check coincides with the existence of an active (non
soft-deleted) user row carrying both identifiers. -/
theorem activeUserInAccount_iff (db : DB) (uid aid : Int) :
    activeUserInAccount db uid aid = true ↔
      ∃ u ∈ db.users, u.idUser = uid ∧ u.idAccount = aid ∧ u.deleted = false := by
  simp [activeUserInAccount, List.any_eq_true, Bool.and_eq_true, beq_iff_eq, and_assoc]

/-- Direct computation of a successful run from the validation facts on
the truncated title. -/
theorem spNoteCreate_ok_of_valid (aid uid : Int) (t c : String) (now : Nat) (db : DB)
    (ht : ¬ sqlTrim (nvarchar255 t) = "") (hc : ¬ sqlTrim c = "")
    (hu : activeUserInAccount db uid aid = true) :
    spNoteCreate (some aid) (some uid) (some t) (some c) now db =
      (Except.ok db.nextNoteId,
        ⟨db.users,
          db.notes ++ [⟨db.nextNoteId, aid, uid, nvarchar255 t, c, now, now, false⟩],
          db.nextNoteId + 1⟩) := by
  have hnl : ¬ 255 < sqlLen (nvarchar255 t) := by
    have := sqlLen_nvarchar255_le t
    omega
  simp [spNoteCreate, ht, hc, hnl, hu, runTransaction, insertNote]

/-- Check 1 of the validation list: account identifier missing. -/
def vAccountMissing (pAccount : Option Int) : Bool := pAccount.isNone

/-- Check 2 of the validation list: user identifier missing. -/
def vUserMissing (pUser : Option Int) : Bool := pUser.isNone

/-- Check 3 of the validation list: title missing or blank after
trimming, as the procedure sees it, that is on the truncated
parameter value. -/
def vTitleBlank (pTitle : Option String) : Bool :=
  match pTitle with
  | none => true
  | some t => sqlTrim (nvarchar255 t) == ""

/-- Check 4 of the validation list: content missing or blank after
trimming. -/
def vContentBlank (pContent : Option String) : Bool :=
  match pContent with
  | none => true
  | some c => sqlTrim c == ""

/-- Check 5 of the validation list as the procedure executes it:
`LEN(@title) > 255` on the truncated parameter value. Because the
parameter holds at most 255 characters, this check can never hold; it
is dead code. -/
def vTitleTooLong (pTitle : Option String) : Bool :=
  match pTitle with
  | none => false
  | some t => decide (255 < sqlLen (nvarchar255 t))

/-- Check 6 of the validation list: no active user row with the given
user identifier in the given account. -/
def vNoActiveUser (pAccount pUser : Option Int) (db : DB) : Bool :=
  match pAccount, pUser with
  | some aid, some uid => !(activeUserInAccount db uid aid)
  | _, _ => false

/-- Message of the earliest violated check in the listed order, if any
check is violated. Check 5 is omitted from the cascade: it can never be
violated inside the procedure (see `vTitleTooLong`), so the live checks
are 1, 2, 3, 4 and 6. -/
def firstViolation (pA pU : Option Int) (pT pC : Option String) (db : DB) :
    Option String :=
  if vAccountMissing pA then some "idAccountRequired"
  else if vUserMissing pU then some "idUserRequired"
  else if vTitleBlank pT then some "titleRequired"
  else if vContentBlank pC then some "contentRequired"
  else if vNoActiveUser pA pU db then some "userDoesNotBelongToAccount"
  else none

/-- C1: for every input passing all six validations of the create
operation, exactly one note row is inserted, with `dateCreated` and
`dateModified` both equal to the single clock value read inside the
transaction and with `deleted = false`, and the run returns the
system-assigned identifier of that row. -/
theorem spNoteCreate_success_inserts_single_row
    (aid uid : Int) (t c : String) (now : Nat) (db : DB)
    (ht : ¬ sqlTrim t = "") (hc : ¬ sqlTrim c = "")
    (hlen : t.length ≤ 255) (hu : activeUserInAccount db uid aid = true) :
    spNoteCreate (some aid) (some uid) (some t) (some c) now db =
      (Except.ok db.nextNoteId,
        ⟨db.users, db.notes ++ [⟨db.nextNoteId, aid, uid, t, c, now, now, false⟩],
          db.nextNoteId + 1⟩) := by
  have hteq := nvarchar255_eq_self hlen
  have hnl : ¬ 255 < sqlLen t := by
    have h2 := sqlLen_nvarchar255_le t
    rw [hteq] at h2
    omega
  simp [spNoteCreate, hteq, ht, hc, hnl, hu, runTransaction, insertNote]

/-- Witness for C1: the concrete creation of scenario 1 of the spec. -/
theorem spNoteCreate_success_inserts_single_row_witness :
    spNoteCreate (some 1) (some 5) (some "Groceries") (some "Milk, eggs") 100 dbEx =
      (Except.ok dbEx.nextNoteId,
        ⟨dbEx.users,
          dbEx.notes ++ [⟨dbEx.nextNoteId, 1, 5, "Groceries", "Milk, eggs", 100, 100, false⟩],
          dbEx.nextNoteId + 1⟩) :=
  spNoteCreate_success_inserts_single_row 1 5 "Groceries" "Milk, eggs" 100 dbEx
    (by decide) (by decide) (by decide) (by decide)

/-- C2 amended: the create operation has no effect on the store when it
fails: every failing run returns the database unchanged (all
validations run before any mutation), and any failure raised inside the
transactional wrapper restores the pre-transaction state and re-raises
the same error. Inputs of invalid class 5 (raw title longer than 255)
are not failing runs, however: the parameter truncates the title and a
row is inserted (see the counterexample), so the zero-insertion
guarantee covers the five live invalid classes only. -/
theorem spNoteCreate_failure_leaves_store_unchanged :
    (∀ (pA pU : Option Int) (pT pC : Option String) (now : Nat) (db : DB)
        (e : SqlError) (db2 : DB),
        spNoteCreate pA pU pT pC now db = (Except.error e, db2) → db2 = db) ∧
    ∀ (body : DB → Except SqlError (Int × DB)) (db : DB) (e : SqlError),
        body db = Except.error e → runTransaction body db = (Except.error e, db) := by
  constructor
  · intro pA pU pT pC now db e db2 h
    exact spNoteCreate_error_db h
  · intro body db e h
    simp [runTransaction, h]

/-- Witness for C2: a run failing its first validation leaves the example
database unchanged, and a failing transaction body is rolled back and
re-raised by the wrapper. -/
theorem spNoteCreate_failure_leaves_store_unchanged_witness :
    dbEx = dbEx ∧
      runTransaction (fun _ => Except.error ⟨51000, "storageFailure"⟩) dbEx =
        (Except.error ⟨51000, "storageFailure"⟩, dbEx) :=
  ⟨spNoteCreate_failure_leaves_store_unchanged.1 none none none none 0 dbEx
      ⟨51000, "idAccountRequired"⟩ dbEx rfl,
    spNoteCreate_failure_leaves_store_unchanged.2
      (fun _ => Except.error ⟨51000, "storageFailure"⟩) dbEx
      ⟨51000, "storageFailure"⟩ rfl⟩

/-- C3 amended: the validations are evaluated in the listed order and
the run fails with the named condition of the earliest violated check
among the live checks 1 (account missing), 2 (user missing), 3 (title
blank after truncation and trim), 4 (content blank after trim) and
6 (no active user in the account); check 5 (title longer than 255) can
never be violated inside the procedure, because the `NVARCHAR(255)`
parameter truncates the title before the check runs, so it is dead
code; when no live check is violated the run succeeds. -/
theorem spNoteCreate_first_violation_wins
    (pA pU : Option Int) (pT pC : Option String) (now : Nat) (db : DB) :
    (∀ pT2 : Option String, vTitleTooLong pT2 = false) ∧
    (∀ m, firstViolation pA pU pT pC db = some m →
        spNoteCreate pA pU pT pC now db = (Except.error ⟨51000, m⟩, db)) ∧
    (firstViolation pA pU pT pC db = none →
        ∃ id db2, spNoteCreate pA pU pT pC now db = (Except.ok id, db2)) := by
  refine ⟨?_, ?_, ?_⟩
  · intro pT2
    cases pT2 with
    | none => rfl
    | some t =>
      have h2 := sqlLen_nvarchar255_le t
      simp [vTitleTooLong]
      omega
  · intro m hm
    cases pA with
    | none =>
      simp [firstViolation, vAccountMissing] at hm
      subst hm
      rfl
    | some aid =>
      cases pU with
      | none =>
        simp [firstViolation, vAccountMissing, vUserMissing] at hm
        subst hm
        rfl
      | some uid =>
        cases pT with
        | none =>
          simp [firstViolation, vAccountMissing, vUserMissing, vTitleBlank] at hm
          subst hm
          rfl
        | some t =>
          have hlen : ¬ 255 < sqlLen (nvarchar255 t) := by
            have h2 := sqlLen_nvarchar255_le t
            omega
          by_cases ht : sqlTrim (nvarchar255 t) = ""
          · simp [firstViolation, vAccountMissing, vUserMissing, vTitleBlank, ht] at hm
            subst hm
            simp [spNoteCreate, ht]
          · cases pC with
            | none =>
              simp [firstViolation, vAccountMissing, vUserMissing, vTitleBlank,
                vContentBlank, ht] at hm
              subst hm
              simp [spNoteCreate, ht]
            | some c =>
              by_cases hc : sqlTrim c = ""
              · simp [firstViolation, vAccountMissing, vUserMissing, vTitleBlank,
                  vContentBlank, ht, hc] at hm
                subst hm
                simp [spNoteCreate, ht, hc]
              · by_cases hu : activeUserInAccount db uid aid = true
                · simp [firstViolation, vAccountMissing, vUserMissing, vTitleBlank,
                    vContentBlank, vNoActiveUser, ht, hc, hu] at hm
                · simp only [Bool.not_eq_true] at hu
                  simp [firstViolation, vAccountMissing, vUserMissing, vTitleBlank,
                    vContentBlank, vNoActiveUser, ht, hc, hu] at hm
                  subst hm
                  simp [spNoteCreate, ht, hc, hlen, hu]
  · intro h
    cases pA with
    | none => simp [firstViolation, vAccountMissing] at h
    | some aid =>
      cases pU with
      | none => simp [firstViolation, vAccountMissing, vUserMissing] at h
      | some uid =>
        cases pT with
        | none => simp [firstViolation, vAccountMissing, vUserMissing, vTitleBlank] at h
        | some t =>
          have hlen : ¬ 255 < sqlLen (nvarchar255 t) := by
            have h2 := sqlLen_nvarchar255_le t
            omega
          by_cases ht : sqlTrim (nvarchar255 t) = ""
          · simp [firstViolation, vAccountMissing, vUserMissing, vTitleBlank, ht] at h
          · cases pC with
            | none =>
              simp [firstViolation, vAccountMissing, vUserMissing, vTitleBlank,
                vContentBlank, ht] at h
            | some c =>
              by_cases hc : sqlTrim c = ""
              · simp [firstViolation, vAccountMissing, vUserMissing, vTitleBlank,
                  vContentBlank, ht, hc] at h
              · by_cases hu : activeUserInAccount db uid aid = true
                · exact ⟨db.nextNoteId,
                    ⟨db.users,
                      db.notes ++
                        [⟨db.nextNoteId, aid, uid, nvarchar255 t, c, now, now, false⟩],
                      db.nextNoteId + 1⟩,
                    by simp [spNoteCreate, ht, hc, hlen, hu, runTransaction, insertNote]⟩
                · simp only [Bool.not_eq_true] at hu
                  simp [firstViolation, vAccountMissing, vUserMissing, vTitleBlank,
                    vContentBlank, vNoActiveUser, ht, hc, hu] at h

/-- Witness for C3: an input violating checks 1, 2, 3 and 4 at once fails
with the condition of check 1. -/
theorem spNoteCreate_first_violation_wins_witness :
    spNoteCreate none none (some "") (some "") 0 dbEx =
      (Except.error ⟨51000, "idAccountRequired"⟩, dbEx) :=
  (spNoteCreate_first_violation_wins none none (some "") (some "") 0 dbEx).2.1
    "idAccountRequired" (by decide)

/-- C4: given parameters passing checks 1 to 5, the run fails with
`userDoesNotBelongToAccount` exactly when no non-deleted user row exists
carrying both the given user identifier and the given account
identifier; in particular it fails this way when every matching row is
soft-deleted even though the account identifier is correct, and when the
user rows all belong to a different account. -/
theorem spNoteCreate_authorization_condition
    (aid uid : Int) (t c : String) (now : Nat) (db : DB)
    (ht : ¬ sqlTrim t = "") (hc : ¬ sqlTrim c = "") (hlen : t.length ≤ 255) :
    ((spNoteCreate (some aid) (some uid) (some t) (some c) now db).fst =
        Except.error ⟨51000, "userDoesNotBelongToAccount"⟩ ↔
      ¬ ∃ u ∈ db.users, u.idUser = uid ∧ u.idAccount = aid ∧ u.deleted = false) ∧
    ((∀ u ∈ db.users, u.idUser = uid → u.idAccount = aid → u.deleted = true) →
      (spNoteCreate (some aid) (some uid) (some t) (some c) now db).fst =
        Except.error ⟨51000, "userDoesNotBelongToAccount"⟩) ∧
    ((∀ u ∈ db.users, u.idUser = uid → ¬ u.idAccount = aid) →
      (spNoteCreate (some aid) (some uid) (some t) (some c) now db).fst =
        Except.error ⟨51000, "userDoesNotBelongToAccount"⟩) := by
  have hteq := nvarchar255_eq_self hlen
  have hnl : ¬ 255 < sqlLen t := by
    have h2 := sqlLen_nvarchar255_le t
    rw [hteq] at h2
    omega
  have hmain : (spNoteCreate (some aid) (some uid) (some t) (some c) now db).fst =
      Except.error ⟨51000, "userDoesNotBelongToAccount"⟩ ↔
      ¬ ∃ u ∈ db.users, u.idUser = uid ∧ u.idAccount = aid ∧ u.deleted = false := by
    rw [← activeUserInAccount_iff]
    by_cases hu : activeUserInAccount db uid aid = true
    · simp [spNoteCreate, hteq, ht, hc, hnl, hu, runTransaction, insertNote]
    · simp only [Bool.not_eq_true] at hu
      simp [spNoteCreate, hteq, ht, hc, hnl, hu]
  refine ⟨hmain, ?_, ?_⟩
  · intro hall
    apply hmain.mpr
    rintro ⟨u, hmem, h1, h2, h3⟩
    have := hall u hmem h1 h2
    rw [h3] at this
    exact Bool.false_ne_true this
  · intro hall
    apply hmain.mpr
    rintro ⟨u, hmem, h1, h2, _⟩
    exact hall u hmem h1 h2

/-- Witness for C4: user 7 exists in account 2 of the example database
but is soft-deleted, so creation in account 2 by user 7 fails with the
authorization condition. -/
theorem spNoteCreate_authorization_condition_witness :
    (spNoteCreate (some 2) (some 7) (some "title") (some "content") 0 dbEx).fst =
      Except.error ⟨51000, "userDoesNotBelongToAccount"⟩ :=
  (spNoteCreate_authorization_condition 2 7 "title" "content" 0 dbEx
      (by decide) (by decide) (by decide)).2.1 (by decide)

/-- The 256-character title used to exercise the length validation. -/
def title256 : String := ⟨List.replicate 256 'a'⟩

set_option maxRecDepth 4000 in
/-- Counterexample for C2 as frozen: an input of invalid class 5 (raw
title length 256, exceeding 255) does not leave the store unchanged:
the title is truncated at the `NVARCHAR(255)` parameter and one row is
inserted. -/
theorem spNoteCreate_failure_leaves_store_unchanged_cex :
    255 < title256.length ∧
    (spNoteCreate (some 1) (some 5) (some title256) (some "x") 0 dbEx).snd.notes.length =
      dbEx.notes.length + 1 :=
  ⟨by decide, by decide⟩

set_option maxRecDepth 4000 in
/-- Counterexample for C3 as frozen: an input whose earliest (and only)
violated check in the listed order is check 5 (title of raw length 256,
everything else valid) does not fail with `titleExceedsMaxLength`; the
run succeeds and returns an identifier. -/
theorem spNoteCreate_first_violation_wins_cex :
    255 < title256.length ∧
    (spNoteCreate (some 1) (some 5) (some title256) (some "x") 0 dbEx).fst =
      Except.ok 1 :=
  ⟨by decide, by rfl⟩

set_option maxRecDepth 4000 in
/-- C5 evaluated at its failing input: a title of exactly 256
characters, with valid account, user and content, does not fail with
`titleExceedsMaxLength`. SQL Server silently truncates the argument to
the declared `NVARCHAR(255)` parameter before the `LEN` check, so the
run inserts a row carrying the truncated 255-character title and
returns the new identifier. The procedure documentation lists a
validation failure for a title exceeding 255 characters, so the code
contradicts its own documentation here. -/
theorem spNoteCreate_title_truncation_bug :
    255 < title256.length ∧
    nvarchar255 title256 = ⟨List.replicate 255 'a'⟩ ∧
    spNoteCreate (some 1) (some 5) (some title256) (some "x") 9 dbEx =
      (Except.ok 1,
        ⟨dbEx.users, [⟨1, 1, 5, ⟨List.replicate 255 'a'⟩, "x", 9, 9, false⟩], 2⟩) :=
  ⟨by decide, by decide, by rfl⟩

/-- Every error raised by the procedure carries the custom error number
51000 used by all six `THROW` statements. -/
theorem spNoteCreate_error_number {pA pU : Option Int} {pT pC : Option String}
    {now : Nat} {db : DB} {e : SqlError} {db2 : DB}
    (h : spNoteCreate pA pU pT pC now db = (Except.error e, db2)) :
    e.number = 51000 := by
  rcases spNoteCreate_cases pA pU pT pC now db with ⟨m2, he⟩ |
    ⟨aid, uid, t, c, _, _, _, _, _, _, _, hok⟩
  · have h2 := he.symm.trans h
    injection h2 with h3 _
    injection h3 with h4
    rw [← h4]
  · have h2 := hok.symm.trans h
    injection h2 with h3 _
    exact absurd h3 (by simp)

/-- JSON-like value of one request body field, as seen by the zod
schema: an integral number, a string, or an absent or otherwise-shaped
value. -/
inductive JVal where
  | jnum (n : Int)
  | jstr (s : String)
  | jother
  deriving DecidableEq

/-- The zod check `z.number().int().positive()` applied to the
`idAccount` field. -/
def checkIdAccount (v : JVal) : Bool :=
  match v with
  | JVal.jnum n => decide (0 < n)
  | _ => false

/-- The zod check `z.number().int().positive()` applied to the `idUser`
field. -/
def checkIdUser (v : JVal) : Bool :=
  match v with
  | JVal.jnum n => decide (0 < n)
  | _ => false

/-- The zod check `z.string().min(1).max(255)` applied to the `title`
field. -/
def checkTitle (v : JVal) : Bool :=
  match v with
  | JVal.jstr s => decide (1 ≤ s.length) && decide (s.length ≤ 255)
  | _ => false

/-- The zod check `z.string().min(1)` applied to the `content` field. -/
def checkContent (v : JVal) : Bool :=
  match v with
  | JVal.jstr s => decide (1 ≤ s.length)
  | _ => false

/-- Names of the body fields whose zod check fails, in schema order:
the list carried by the resulting `ZodError`. -/
def bodyIssues (a u t c : JVal) : List String :=
  (if checkIdAccount a then [] else ["idAccount"]) ++
  (if checkIdUser u then [] else ["idUser"]) ++
  (if checkTitle t then [] else ["title"]) ++
  (if checkContent c then [] else ["content"])

/-- The `bodySchema.parse` call of the controller: returns the four
validated fields, or raises the list of violated fields. -/
def parseBody (a u t c : JVal) :
    Except (List String) (Int × Int × String × String) :=
  match a, u, t, c with
  | JVal.jnum aid, JVal.jnum uid, JVal.jstr ts2, JVal.jstr cs2 =>
    if 0 < aid ∧ 0 < uid ∧ (1 ≤ ts2.length ∧ ts2.length ≤ 255) ∧ 1 ≤ cs2.length then
      Except.ok (aid, uid, ts2, cs2)
    else Except.error (bodyIssues a u t c)
  | _, _, _, _ => Except.error (bodyIssues a u t c)

/-- A body with at least one violated field is rejected by
`bodySchema.parse` with exactly the list of violated fields. -/
theorem parseBody_fail (a u t c : JVal) (h : ¬ bodyIssues a u t c = []) :
    parseBody a u t c = Except.error (bodyIssues a u t c) := by
  cases a with
  | jnum aid =>
    cases u with
    | jnum uid =>
      cases t with
      | jstr ts2 =>
        cases c with
        | jstr cs2 =>
          by_cases hcond :
            0 < aid ∧ 0 < uid ∧ (1 ≤ ts2.length ∧ ts2.length ≤ 255) ∧ 1 ≤ cs2.length
          · exfalso
            apply h
            obtain ⟨h1, h2, ⟨h3, h4⟩, h5⟩ := hcond
            simp [bodyIssues, checkIdAccount, checkIdUser, checkTitle, checkContent,
              h1, h2, h3, h4, h5]
          · simp [parseBody, hcond]
        | jnum _ => rfl
        | jother => rfl
      | jnum _ => rfl
      | jother => rfl
    | jstr _ => rfl
    | jother => rfl
  | jstr _ => rfl
  | jother => rfl

/-- Field `data` of a success envelope: the creation result row
`{ idNote }` surfaced by the database utility as `result.recordset[0]`. -/
structure NoteData where
  idNote : Int
  deriving DecidableEq

/-- Field `metadata` of a success envelope. -/
structure RespMetadata where
  timestamp : String
  deriving DecidableEq

/-- The success envelope built by `successResponse`: `success = true`,
the data, and metadata carrying a timestamp. -/
structure SuccessEnvelope where
  success : Bool
  data : NoteData
  metadata : RespMetadata
  deriving DecidableEq

/-- The `successResponse` helper of the response utilities. -/
def successResponse (d : NoteData) (ts : String) : SuccessEnvelope :=
  ⟨true, d, ⟨ts⟩⟩

/-- Body of an HTTP response sent by the controller: a success envelope,
or an error envelope built by `errorResponse` with a code, a message and
detail entries (the violated fields of a `ZodError`). -/
inductive RespBody where
  | success (env : SuccessEnvelope)
  | failure (code : String) (message : String) (details : List String)
  deriving DecidableEq

/-- Outcome of the controller: an HTTP response with a status code and a
body, or delegation of the raw failure to the generic handler through
`next(error)`. -/
inductive HandlerResult where
  | respond (status : Nat) (body : RespBody)
  | nextCalled (number : Option Nat) (message : String)
  deriving DecidableEq

/-- Outcome of the `noteCreate` service call as observed by the
controller: the data row, or a raised failure carrying the optional
`number` field of the error object and its message. -/
inductive ServiceOutcome where
  | ok (d : NoteData)
  | fail (number : Option Nat) (message : String)
  deriving DecidableEq

/-- The controller `postHandler`: zod validation of the body, then the
service call; a `ZodError` maps to a 400 `VALIDATION_ERROR` response, a
failure whose `number` equals 51000 maps to a 400 `BUSINESS_RULE_ERROR`
response with the underlying message, and every other failure is passed
to `next`. `run` stands for the `noteCreate` call on the validated
fields. -/
def postHandler (a u t c : JVal)
    (run : Int → Int → String → String → ServiceOutcome) (ts : String) :
    HandlerResult :=
  match parseBody a u t c with
  | Except.error issues =>
    HandlerResult.respond 400
      (RespBody.failure "VALIDATION_ERROR" "Validation failed" issues)
  | Except.ok (aid, uid, tt, cc) =>
    match run aid uid tt cc with
    | ServiceOutcome.ok d =>
      HandlerResult.respond 201 (RespBody.success (successResponse d ts))
    | ServiceOutcome.fail num msg =>
      if num = some 51000 then
        HandlerResult.respond 400 (RespBody.failure "BUSINESS_RULE_ERROR" msg [])
      else HandlerResult.nextCalled num msg

/-- The service adapter `noteCreate`: forwards the validated fields to
the stored procedure unchanged and returns its single-record result
unmodified; a `THROW` from the procedure surfaces as a failure whose
`number` field holds the SQL error number. -/
def noteCreate (aid uid : Int) (t c : String) (now : Nat) (db : DB) :
    ServiceOutcome × DB :=
  match spNoteCreate (some aid) (some uid) (some t) (some c) now db with
  | (Except.ok id, db2) => (ServiceOutcome.ok ⟨id⟩, db2)
  | (Except.error e, db2) => (ServiceOutcome.fail (some e.number) e.message, db2)

/-- The full creation request path: the controller runs with the
service call executing the stored procedure against the store `db`
(`now` is the procedure clock, `ts` the response timestamp), and the
resulting store is the one produced by that call, or `db` itself when
validation rejects the body before any call. -/
def handleNoteRequest (a u t c : JVal) (now : Nat) (ts : String) (db : DB) :
    HandlerResult × DB :=
  (postHandler a u t c (fun aid uid tt cc => (noteCreate aid uid tt cc now db).fst) ts,
    match parseBody a u t c with
    | Except.error _ => db
    | Except.ok (aid, uid, tt, cc) => (noteCreate aid uid tt cc now db).snd)

/-- C6: the controller maps failures as specified: a body failing the
zod structural validation yields a 400 `VALIDATION_ERROR` response
carrying the list of violated fields, and the create operation is not
invoked (the outcome does not depend on the service call); a failure
raised by the procedure (always error number 51000) yields a 400
`BUSINESS_RULE_ERROR` response with the underlying message; every other
failure is passed to the generic handler through `next`. -/
theorem postHandler_error_mapping :
    (∀ (a u t c : JVal) (run run2 : Int → Int → String → String → ServiceOutcome)
        (ts : String), ¬ bodyIssues a u t c = [] →
        postHandler a u t c run ts =
          HandlerResult.respond 400
            (RespBody.failure "VALIDATION_ERROR" "Validation failed"
              (bodyIssues a u t c)) ∧
        postHandler a u t c run ts = postHandler a u t c run2 ts) ∧
    (∀ (a u t c : JVal) (aid uid : Int) (tt cc : String) (now : Nat)
        (ts : String) (db db2 : DB) (e : SqlError),
        parseBody a u t c = Except.ok (aid, uid, tt, cc) →
        spNoteCreate (some aid) (some uid) (some tt) (some cc) now db =
          (Except.error e, db2) →
        handleNoteRequest a u t c now ts db =
          (HandlerResult.respond 400
            (RespBody.failure "BUSINESS_RULE_ERROR" e.message []), db2)) ∧
    ∀ (a u t c : JVal) (aid uid : Int) (tt cc : String) (ts : String)
        (run : Int → Int → String → String → ServiceOutcome)
        (num : Option Nat) (msg : String),
        parseBody a u t c = Except.ok (aid, uid, tt, cc) →
        run aid uid tt cc = ServiceOutcome.fail num msg →
        ¬ num = some 51000 →
        postHandler a u t c run ts = HandlerResult.nextCalled num msg := by
  refine ⟨?_, ?_, ?_⟩
  · intro a u t c run run2 ts h
    have hp := parseBody_fail a u t c h
    exact ⟨by simp [postHandler, hp], by simp [postHandler, hp]⟩
  · intro a u t c aid uid tt cc now ts db db2 e hp hsp
    have hnum := spNoteCreate_error_number hsp
    simp [handleNoteRequest, postHandler, noteCreate, hp, hsp, hnum]
  · intro a u t c aid uid tt cc ts run num msg hp hrun hne
    simp [postHandler, hp, hrun, hne]

/-- A service call that always succeeds, used only in the witness of the
mapping theorem. -/
def runOkEx (_ _ : Int) (_ _ : String) : ServiceOutcome :=
  ServiceOutcome.ok ⟨9⟩

/-- A service call that always fails without an error number, standing
for an infrastructure failure, used only in the witness of the mapping
theorem. -/
def runFailEx (_ _ : Int) (_ _ : String) : ServiceOutcome :=
  ServiceOutcome.fail none "connection lost"

/-- Witness for C6: a string-valued `idAccount` is rejected as
`VALIDATION_ERROR`; a soft-deleted user produces `BUSINESS_RULE_ERROR`
with the procedure message; a failure without error number 51000 is
passed to `next`. -/
theorem postHandler_error_mapping_witness :
    (postHandler (JVal.jstr "one") (JVal.jnum 5) (JVal.jstr "t") (JVal.jstr "c")
        runOkEx "ts" =
      HandlerResult.respond 400
        (RespBody.failure "VALIDATION_ERROR" "Validation failed" ["idAccount"])) ∧
    (handleNoteRequest (JVal.jnum 2) (JVal.jnum 7) (JVal.jstr "t") (JVal.jstr "c")
        0 "ts" dbEx =
      (HandlerResult.respond 400
        (RespBody.failure "BUSINESS_RULE_ERROR" "userDoesNotBelongToAccount" []),
        dbEx)) ∧
    postHandler (JVal.jnum 1) (JVal.jnum 5) (JVal.jstr "t") (JVal.jstr "c")
        runFailEx "ts" =
      HandlerResult.nextCalled none "connection lost" :=
  ⟨(postHandler_error_mapping.1 (JVal.jstr "one") (JVal.jnum 5) (JVal.jstr "t")
      (JVal.jstr "c") runOkEx runOkEx "ts" (by decide)).1,
    postHandler_error_mapping.2.1 (JVal.jnum 2) (JVal.jnum 7) (JVal.jstr "t")
      (JVal.jstr "c") 2 7 "t" "c" 0 "ts" dbEx dbEx
      ⟨51000, "userDoesNotBelongToAccount"⟩ (by rfl) (by rfl),
    postHandler_error_mapping.2.2 (JVal.jnum 1) (JVal.jnum 5) (JVal.jstr "t")
      (JVal.jstr "c") 1 5 "t" "c" "ts" runFailEx
      none "connection lost" (by rfl) (by rfl) (by decide)⟩

/-- C9 amended: a body field that is non-empty but consists only of
space characters (`sqlTrim s = ""` with `1 ≤ s.length`) passes the
structural validation of the controller (which only requires length at
least 1) and is rejected by the blank-after-trim check of the
procedure, so the client receives `BUSINESS_RULE_ERROR` rather than
`VALIDATION_ERROR`: first conjunct for a space-only title, second for a
space-only content. Fields made of other whitespace, such as a tab,
pass both layers and the note is created, because T-SQL `LTRIM` and
`RTRIM` remove only spaces (see the counterexample). -/
theorem whitespace_only_fields_business_rule
    (aid uid : Int) (s cs : String) (now : Nat) (ts : String) (db : DB)
    (ha : 0 < aid) (hu : 0 < uid) :
    (1 ≤ s.length → s.length ≤ 255 → sqlTrim s = "" → 1 ≤ cs.length →
      parseBody (JVal.jnum aid) (JVal.jnum uid) (JVal.jstr s) (JVal.jstr cs) =
        Except.ok (aid, uid, s, cs) ∧
      handleNoteRequest (JVal.jnum aid) (JVal.jnum uid) (JVal.jstr s) (JVal.jstr cs)
          now ts db =
        (HandlerResult.respond 400
          (RespBody.failure "BUSINESS_RULE_ERROR" "titleRequired" []), db)) ∧
    (1 ≤ s.length → s.length ≤ 255 → ¬ sqlTrim s = "" → 1 ≤ cs.length →
      sqlTrim cs = "" →
      parseBody (JVal.jnum aid) (JVal.jnum uid) (JVal.jstr s) (JVal.jstr cs) =
        Except.ok (aid, uid, s, cs) ∧
      handleNoteRequest (JVal.jnum aid) (JVal.jnum uid) (JVal.jstr s) (JVal.jstr cs)
          now ts db =
        (HandlerResult.respond 400
          (RespBody.failure "BUSINESS_RULE_ERROR" "contentRequired" []), db)) := by
  constructor
  · intro h1 h2 h3 h4
    have hteq := nvarchar255_eq_self h2
    have hp : parseBody (JVal.jnum aid) (JVal.jnum uid) (JVal.jstr s) (JVal.jstr cs) =
        Except.ok (aid, uid, s, cs) := by
      simp [parseBody, ha, hu, h1, h2, h4]
    have hsp : spNoteCreate (some aid) (some uid) (some s) (some cs) now db =
        (Except.error ⟨51000, "titleRequired"⟩, db) := by
      simp [spNoteCreate, hteq, h3]
    exact ⟨hp, by simp [handleNoteRequest, postHandler, noteCreate, hp, hsp]⟩
  · intro h1 h2 h3 h4 h5
    have hteq := nvarchar255_eq_self h2
    have hp : parseBody (JVal.jnum aid) (JVal.jnum uid) (JVal.jstr s) (JVal.jstr cs) =
        Except.ok (aid, uid, s, cs) := by
      simp [parseBody, ha, hu, h1, h2, h4]
    have hsp : spNoteCreate (some aid) (some uid) (some s) (some cs) now db =
        (Except.error ⟨51000, "contentRequired"⟩, db) := by
      simp [spNoteCreate, hteq, h3, h5]
    exact ⟨hp, by simp [handleNoteRequest, postHandler, noteCreate, hp, hsp]⟩

/-- Witness for C9: a single-space title, and then a single-space
content, both pass structural validation and come back as
`BUSINESS_RULE_ERROR`. -/
theorem whitespace_only_fields_business_rule_witness :
    (parseBody (JVal.jnum 1) (JVal.jnum 5) (JVal.jstr " ") (JVal.jstr "x") =
        Except.ok (1, 5, " ", "x") ∧
      handleNoteRequest (JVal.jnum 1) (JVal.jnum 5) (JVal.jstr " ") (JVal.jstr "x")
          0 "ts" dbEx =
        (HandlerResult.respond 400
          (RespBody.failure "BUSINESS_RULE_ERROR" "titleRequired" []), dbEx)) ∧
    (parseBody (JVal.jnum 1) (JVal.jnum 5) (JVal.jstr "t") (JVal.jstr " ") =
        Except.ok (1, 5, "t", " ") ∧
      handleNoteRequest (JVal.jnum 1) (JVal.jnum 5) (JVal.jstr "t") (JVal.jstr " ")
          0 "ts" dbEx =
        (HandlerResult.respond 400
          (RespBody.failure "BUSINESS_RULE_ERROR" "contentRequired" []), dbEx)) :=
  ⟨(whitespace_only_fields_business_rule 1 5 " " "x" 0 "ts" dbEx
      (by decide) (by decide)).1 (by decide) (by decide) (by decide) (by decide),
    (whitespace_only_fields_business_rule 1 5 "t" " " 0 "ts" dbEx
      (by decide) (by decide)).2 (by decide) (by decide) (by decide) (by decide)
      (by decide)⟩

/-- Counterexample for C9 as frozen: a tab-only title is non-empty and
consists only of whitespace, yet the full request path answers 201 with
the note inserted, not `BUSINESS_RULE_ERROR`: zod accepts it (length 1)
and the procedure accepts it too, since T-SQL trimming removes only
spaces and a tab is not a space. -/
theorem whitespace_only_fields_business_rule_cex :
    "\t".data.all Char.isWhitespace = true ∧
    ¬ "\t" = "" ∧
    handleNoteRequest (JVal.jnum 1) (JVal.jnum 5) (JVal.jstr "\t") (JVal.jstr "x")
        0 "ts" dbEx =
      (HandlerResult.respond 201 (RespBody.success ⟨true, ⟨1⟩, ⟨"ts"⟩⟩),
        ⟨dbEx.users, [⟨1, 1, 5, "\t", "x", 0, 0, false⟩], 2⟩) :=
  ⟨by decide, by decide, by rfl⟩

/-- C10: on every successful creation the controller responds with HTTP
status 201 and the envelope `success = true`, `data = { idNote }`,
`metadata = { timestamp }`, where the data is exactly the record
returned by the procedure, passed through the service adapter
unmodified. -/
theorem success_envelope_shape
    (a u t c : JVal) (aid uid : Int) (tt cc : String) (now : Nat) (ts : String)
    (db db2 : DB) (id : Int)
    (hp : parseBody a u t c = Except.ok (aid, uid, tt, cc))
    (hs : spNoteCreate (some aid) (some uid) (some tt) (some cc) now db =
      (Except.ok id, db2)) :
    noteCreate aid uid tt cc now db = (ServiceOutcome.ok ⟨id⟩, db2) ∧
    handleNoteRequest a u t c now ts db =
      (HandlerResult.respond 201 (RespBody.success ⟨true, ⟨id⟩, ⟨ts⟩⟩), db2) := by
  have hn : noteCreate aid uid tt cc now db = (ServiceOutcome.ok ⟨id⟩, db2) := by
    simp [noteCreate, hs]
  exact ⟨hn, by simp [handleNoteRequest, postHandler, hp, hn, successResponse]⟩

/-- Witness for C10: the concrete creation of scenario 1 through the
whole request path. -/
theorem success_envelope_shape_witness :
    noteCreate 1 5 "Groceries" "Milk, eggs" 100 dbEx =
      (ServiceOutcome.ok ⟨1⟩,
        ⟨dbEx.users, [⟨1, 1, 5, "Groceries", "Milk, eggs", 100, 100, false⟩], 2⟩) ∧
    handleNoteRequest (JVal.jnum 1) (JVal.jnum 5) (JVal.jstr "Groceries")
        (JVal.jstr "Milk, eggs") 100 "2024-01-01T00:00:00Z" dbEx =
      (HandlerResult.respond 201
        (RespBody.success ⟨true, ⟨1⟩, ⟨"2024-01-01T00:00:00Z"⟩⟩),
        ⟨dbEx.users, [⟨1, 1, 5, "Groceries", "Milk, eggs", 100, 100, false⟩], 2⟩) :=
  success_envelope_shape (JVal.jnum 1) (JVal.jnum 5) (JVal.jstr "Groceries")
    (JVal.jstr "Milk, eggs") 1 5 "Groceries" "Milk, eggs" 100 "2024-01-01T00:00:00Z"
    dbEx ⟨dbEx.users, [⟨1, 1, 5, "Groceries", "Milk, eggs", 100, 100, false⟩], 2⟩ 1
    (by rfl) (by rfl)

/-- States of the store reachable from a start state through runs of the
create operation, the only in-scope constructor of note rows. Failed
runs are included; they leave the state unchanged. -/
inductive Reach : DB → DB → Prop where
  | refl (db : DB) : Reach db db
  | step (db db1 db2 : DB) (pA pU : Option Int) (pT pC : Option String)
      (now : Nat) (r : Except SqlError Int) :
      Reach db db1 → spNoteCreate pA pU pT pC now db1 = (r, db2) → Reach db db2

/-- The identity counter never decreases along reachability. -/
theorem Reach_next_mono {db db2 : DB} (h : Reach db db2) :
    db.nextNoteId ≤ db2.nextNoteId := by
  induction h with
  | refl => exact le_refl _
  | step db1 db3 pA pU pT pC now r hr hstep ih =>
    exact le_trans ih (spNoteCreate_next_mono hstep)

/-- C7: identifiers of successive successful creations are strictly
increasing, hence pairwise distinct, across any later reachable state;
and the operation is not idempotent: repeating a successful call with
identical inputs succeeds again and yields a second, distinct note row
with a distinct identifier. -/
theorem spNoteCreate_ids_strictly_increasing
    (pA pU : Option Int) (pT pC : Option String) (now : Nat) (db : DB)
    (id1 : Int) (db1 : DB)
    (h1 : spNoteCreate pA pU pT pC now db = (Except.ok id1, db1)) :
    (∀ (dbm : DB), Reach db1 dbm →
      ∀ (pA2 pU2 : Option Int) (pT2 pC2 : Option String) (now2 : Nat)
        (id2 : Int) (db2 : DB),
        spNoteCreate pA2 pU2 pT2 pC2 now2 dbm = (Except.ok id2, db2) →
        id1 < id2) ∧
    ∀ (now2 : Nat), ∃ id2 db2,
      spNoteCreate pA pU pT pC now2 db1 = (Except.ok id2, db2) ∧
      ¬ id1 = id2 ∧
      ∃ r1 r2, r1 ∈ db2.notes ∧ r2 ∈ db2.notes ∧
        r1.idNote = id1 ∧ r2.idNote = id2 ∧ ¬ r1 = r2 := by
  obtain ⟨aid, uid, t, c, hA, hU, hT, hC, ht, hc, hu, hid1, hdb1⟩ :=
    spNoteCreate_ok_inv h1
  constructor
  · intro dbm hreach pA2 pU2 pT2 pC2 now2 id2 db2 h2
    obtain ⟨_, _, _, _, _, _, _, _, _, _, _, hid2, _⟩ := spNoteCreate_ok_inv h2
    have hmono := Reach_next_mono hreach
    have hnext1 : db1.nextNoteId = db.nextNoteId + 1 := by rw [hdb1]
    omega
  · intro now2
    subst hA hU hT hC hid1
    have hu1 : activeUserInAccount db1 uid aid = true := by
      rw [hdb1]
      exact hu
    have h2 := spNoteCreate_ok_of_valid aid uid t c now2 db1 ht hc hu1
    refine ⟨db1.nextNoteId, _, h2, ?_, ?_⟩
    · have hnext1 : db1.nextNoteId = db.nextNoteId + 1 := by rw [hdb1]
      omega
    · refine ⟨⟨db.nextNoteId, aid, uid, nvarchar255 t, c, now, now, false⟩,
        ⟨db1.nextNoteId, aid, uid, nvarchar255 t, c, now2, now2, false⟩,
        ?_, ?_, rfl, rfl, ?_⟩
      · show _ ∈ (DB.mk db1.users
          (db1.notes ++
            [⟨db1.nextNoteId, aid, uid, nvarchar255 t, c, now2, now2, false⟩])
          (db1.nextNoteId + 1)).notes
        rw [hdb1]
        simp
      · show _ ∈ (DB.mk db1.users
          (db1.notes ++
            [⟨db1.nextNoteId, aid, uid, nvarchar255 t, c, now2, now2, false⟩])
          (db1.nextNoteId + 1)).notes
        simp
      · intro heq
        have hfield := congrArg NoteRow.idNote heq
        simp at hfield
        have hnext1 : db1.nextNoteId = db.nextNoteId + 1 := by rw [hdb1]
        omega

/-- Witness for C7: two successive creations with identical inputs on
the example database return 1 and then 2. -/
theorem spNoteCreate_ids_strictly_increasing_witness :
    ((1 : Int) < 2) ∧
      ∃ id2 db2,
        spNoteCreate (some 1) (some 5) (some "t") (some "c") 7
            ⟨dbEx.users, [⟨1, 1, 5, "t", "c", 3, 3, false⟩], 2⟩ =
          (Except.ok id2, db2) ∧
        ¬ (1 : Int) = id2 ∧
        ∃ r1 r2, r1 ∈ db2.notes ∧ r2 ∈ db2.notes ∧
          r1.idNote = 1 ∧ r2.idNote = id2 ∧ ¬ r1 = r2 :=
  ⟨(spNoteCreate_ids_strictly_increasing (some 1) (some 5) (some "t") (some "c")
      3 dbEx 1 ⟨dbEx.users, [⟨1, 1, 5, "t", "c", 3, 3, false⟩], 2⟩ (by rfl)).1
      ⟨dbEx.users, [⟨1, 1, 5, "t", "c", 3, 3, false⟩], 2⟩
      (Reach.refl _) (some 1) (some 5) (some "t") (some "c") 7 2
      ⟨dbEx.users,
        [⟨1, 1, 5, "t", "c", 3, 3, false⟩, ⟨2, 1, 5, "t", "c", 7, 7, false⟩], 3⟩
      (by rfl),
    (spNoteCreate_ids_strictly_increasing (some 1) (some 5) (some "t") (some "c")
      3 dbEx 1 ⟨dbEx.users, [⟨1, 1, 5, "t", "c", 3, 3, false⟩], 2⟩ (by rfl)).2 7⟩

/-- C8: `dateCreated ≤ dateModified` is an invariant of every store
state reachable through the create operation, and every successful
creation appends its single row with both timestamps set to the same
value. -/
theorem note_timestamps_invariant :
    (∀ (db0 db : DB), Reach db0 db →
      (∀ n ∈ db0.notes, n.dateCreated ≤ n.dateModified) →
      ∀ n ∈ db.notes, n.dateCreated ≤ n.dateModified) ∧
    ∀ (pA pU : Option Int) (pT pC : Option String) (now : Nat) (db : DB)
      (id : Int) (db2 : DB),
      spNoteCreate pA pU pT pC now db = (Except.ok id, db2) →
      ∃ row, db2.notes = db.notes ++ [row] ∧ row.dateCreated = row.dateModified := by
  constructor
  · intro db0 db hreach h0
    induction hreach with
    | refl => exact h0
    | step db1 db3 pA pU pT pC now r hr hstep ih =>
      cases r with
      | error e =>
        rw [spNoteCreate_error_db hstep]
        exact ih
      | ok id =>
        obtain ⟨aid, uid, t, c, _, _, _, _, _, _, _, _, hdb2⟩ :=
          spNoteCreate_ok_inv hstep
        rw [hdb2]
        intro n hn
        simp only [List.mem_append, List.mem_singleton] at hn
        rcases hn with hn | hn
        · exact ih n hn
        · rw [hn]
  · intro pA pU pT pC now db id db2 h
    obtain ⟨aid, uid, t, c, _, _, _, _, _, _, _, _, hdb2⟩ := spNoteCreate_ok_inv h
    rw [hdb2]
    exact ⟨⟨db.nextNoteId, aid, uid, nvarchar255 t, c, now, now, false⟩, rfl, rfl⟩

/-- The example note row used in the invariant witness. -/
def noteEx : NoteRow := ⟨1, 1, 5, "t", "c", 50, 60, false⟩

/-- The example store holding `noteEx`, used in the invariant witness. -/
def dbN : DB := ⟨[⟨5, 1, false⟩], [noteEx], 2⟩

/-- Witness for C8: the invariant applied to a concrete reachable state
and to a concrete successful creation. -/
theorem note_timestamps_invariant_witness :
    noteEx.dateCreated ≤ noteEx.dateModified ∧
      ∃ row,
        (⟨dbEx.users, [⟨1, 1, 5, "t", "c", 9, 9, false⟩], 2⟩ : DB).notes =
          dbEx.notes ++ [row] ∧ row.dateCreated = row.dateModified :=
  ⟨note_timestamps_invariant.1 dbN dbN (Reach.refl dbN) (by decide) noteEx
      (by simp [dbN]),
    note_timestamps_invariant.2 (some 1) (some 5) (some "t") (some "c") 9 dbEx 1
      ⟨dbEx.users, [⟨1, 1, 5, "t", "c", 9, 9, false⟩], 2⟩ (by rfl)⟩
